import Mathlib

/-!
Shallow embedding of the `store_monitoring` service (files
`database.py`, `report.py`, `utils.py`) for verification.

Modelling conventions:
* Instants (`datetime`) are integer seconds; the embedding's day 0 is a
  Monday, so Python's `weekday()` (Monday = 0) becomes
  `(t / 86400) % 7` with floor division.
* Times of day (`time`) are integer seconds since local midnight, in
  `[0, 86400)`; `time(23, 59, 59)` is `86399`.
* IANA timezones are modelled as fixed UTC offsets in seconds
  (`pytz`-style daylight-saving shifts are out of scope here; every
  claim under study uses a fixed-offset zone).  `convert_utc_to_local`
  is therefore addition of the offset.
* Python floats (minute counters, `total_seconds() / 60`) are modelled
  as exact rationals `ℚ`.
* A Python `dict` is an association list with insertion order and
  last-write-wins update, as in CPython.
* A raised exception (`database.py` can hit a `TypeError`: see
  `hourOverlap`) is modelled with `Except Unit`.
-/

/-- One row of the `menu_hours` table: columns in `CREATE TABLE` order
`(store_id, dayofweek, start_time_local, end_time_local)`. -/
structure MenuRow where
  store_id : ℤ
  dayofweek : ℤ
  start_time_local : ℤ
  end_time_local : ℤ
  deriving Repr, DecidableEq

/-- One row of the `store_data` table: `(store_id, status, timestamp_utc)`. -/
structure ObsRow where
  store_id : ℤ
  status : String
  timestamp_utc : ℤ
  deriving Repr, DecidableEq

/-- The read-only database contents seen by the report code: the
`menu_hours`, `store_tz` and `store_data` tables. A `store_tz` row is
`(store_id, utc offset in seconds)` per the fixed-offset timezone model. -/
structure DB where
  menu_hours : List MenuRow
  store_tz : List (ℤ × ℤ)
  store_data : List ObsRow
  deriving Repr, DecidableEq

/-- CPython `dict` update `d[k] = v`: overwrite in place if the key is
present, else append (insertion order preserved). -/
def dictInsert {α : Type} (d : List (ℤ × α)) (k : ℤ) (v : α) : List (ℤ × α) :=
  match d with
  | [] => [(k, v)]
  | p :: rest => if p.1 = k then (k, v) :: rest else p :: dictInsert rest k v

/-- CPython `dict` lookup `d[k]` (keys are unique, so first match). -/
def dictGet {α : Type} (d : List (ℤ × α)) (k : ℤ) : Option α :=
  match d with
  | [] => none
  | p :: rest => if p.1 = k then some p.2 else dictGet rest k

/-- `datetime.weekday()` for an instant in seconds (day 0 is a Monday). -/
def weekday (t : ℤ) : ℤ := (t / 86400) % 7

/-- `datetime.time()` as seconds since local midnight. -/
def timeOfDay (t : ℤ) : ℤ := t % 86400

/-- `utils.convert_utc_to_local`: localization under the fixed-offset
timezone model is addition of the offset. -/
def convert_utc_to_local (t off : ℤ) : ℤ := t + off

/-- Number of instants yielded by `utils.time_range(s, e, 1h)`
(`while start < end: yield; start += 1h`). -/
def numHours (s e : ℤ) : ℕ :=
  if s < e then (e - s - 1).toNat / 3600 + 1 else 0

/-- `utils.time_range(s, e, timedelta(hours=1))` as a list. -/
def time_range (s e : ℤ) : List ℤ :=
  (List.range (numHours s e)).map (fun k => s + 3600 * k)

/-- `database.fetch_store_ids`: `SELECT store_id FROM menu_hours`
(one id per row, duplicates kept, table order). -/
def fetch_store_ids (db : DB) : List ℤ :=
  db.menu_hours.map (fun r => r.store_id)

/-- `database.fetch_store_hours`: `SELECT * FROM menu_hours WHERE
store_id = %s`, then `hours[row[0]] = (row[1], row[2])`.  Because
`SELECT *` yields `(store_id, dayofweek, start_time_local,
end_time_local)`, `row[0]` is the store id, `row[1]` the weekday and
`row[2]` the opening time: the dict is keyed by store id and its value
is `(dayofweek : int, start_time_local : time)`. -/
def fetch_store_hours (db : DB) (sid : ℤ) : List (ℤ × (ℤ × ℤ)) :=
  (db.menu_hours.filter (fun r => r.store_id = sid)).foldl
    (fun h r => dictInsert h r.store_id (r.dayofweek, r.start_time_local)) []

/-- `database.fetch_store_timezone`: first `store_tz` row for the store,
else the default `"America/Chicago"`, modelled as the fixed offset
−21600 s (UTC−6). -/
def fetch_store_timezone (db : DB) (sid : ℤ) : ℤ :=
  match (db.store_tz.filter (fun p => p.1 = sid)).head? with
  | some p => p.2
  | none => -21600

/-- `database.fetch_store_data`: `(timestamp_utc, status)` rows of the
store with `start_time <= timestamp_utc < end_time`, table order. -/
def fetch_store_data (db : DB) (sid s e : ℤ) : List (ℤ × String) :=
  (db.store_data.filter
    (fun r => r.store_id = sid ∧ s ≤ r.timestamp_utc ∧ r.timestamp_utc < e)).map
    (fun r => (r.timestamp_utc, r.status))

/-- The span a counted observation adds, in minutes:
`(data_local_timestamp + 1h - max(data_local_timestamp, hour_start)).total_seconds() / 60`. -/
def spanMinutes (tLocal hourStart : ℤ) : ℚ :=
  ((tLocal + 3600 - max tLocal hourStart : ℤ) : ℚ) / 60

/-- One iteration of the observation loop of
`calculate_uptime_downtime`: localize the observation's timestamp and,
when it lies in `[hour_start, hour_start + 1h)`, add its span to
`hour_uptime` for status `"active"` or to `hour_downtime` for
`"inactive"`; any other status adds to neither. -/
def obsStep (off hourStart : ℤ) (acc : ℚ × ℚ) (d : ℤ × String) : ℚ × ℚ :=
  let tl := convert_utc_to_local d.1 off
  if tl ≥ hourStart ∧ tl < hourStart + 3600 then
    if d.2 = "active" then (acc.1 + spanMinutes tl hourStart, acc.2)
    else if d.2 = "inactive" then (acc.1, acc.2 + spanMinutes tl hourStart)
    else acc
  else acc

/-- The inner observation loop of `calculate_uptime_downtime` for one
visited hour: accumulate `(hour_uptime, hour_downtime)` over the fetched
rows. -/
def hourContrib (data : List (ℤ × String)) (off hourStart : ℤ) : ℚ × ℚ :=
  data.foldl (obsStep off hourStart) (0, 0)

/-- The per-hour business-hours test of `calculate_uptime_downtime`.
`hours[hour_dow]` hits only when the store id equals the weekday (the
dict is keyed by store id); on a hit the unpacked pair is
`(dayofweek : int, start_time_local : time)`, so Python evaluates
`hour_start.time() < start_time_local` first and, only when that is
true, `hour_end.time() > dayofweek` — a `time`-versus-`int` comparison
that raises `TypeError` (modelled as `Except.error ()`).  On a miss the
fallback pair `(time(0, 0), time(23, 59, 59))` is used. -/
def hourOverlap (hoursDict : List (ℤ × (ℤ × ℤ))) (hourStart : ℤ) : Except Unit Bool :=
  match dictGet hoursDict (weekday hourStart) with
  | some v =>
      if timeOfDay hourStart < v.2 then Except.error () else Except.ok false
  | none =>
      Except.ok (decide (timeOfDay hourStart < 86399) &&
                 decide (timeOfDay (hourStart + 3600) > 0))

/-- The six running minute counters of `calculate_uptime_downtime`. -/
structure Counters where
  upH : ℚ
  dnH : ℚ
  upD : ℚ
  dnD : ℚ
  upW : ℚ
  dnW : ℚ
  deriving Repr, DecidableEq

/-- One iteration of the hour loop of `calculate_uptime_downtime`: test
business hours, apportion observations when the hour is visited, add to
the day counters when the local start time-of-day is in
`[09:00:00, 21:00:00)` and to the week counters, then add to the hour
counters unconditionally (`hour_uptime` is `0` for a skipped hour). -/
def hourStep (hoursDict : List (ℤ × (ℤ × ℤ))) (data : List (ℤ × String)) (off : ℤ)
    (acc : Counters) (hourStart : ℤ) : Except Unit Counters := do
  let b ← hourOverlap hoursDict hourStart
  let c := if b then hourContrib data off hourStart else (0, 0)
  let acc1 :=
    if b then
      let acc' :=
        if 32400 ≤ timeOfDay hourStart ∧ timeOfDay hourStart < 75600 then
          { acc with upD := acc.upD + c.1, dnD := acc.dnD + c.2 }
        else acc
      { acc' with upW := acc'.upW + c.1, dnW := acc'.dnW + c.2 }
    else acc
  pure { acc1 with upH := acc1.upH + c.1, dnH := acc1.dnH + c.2 }

/-- The result row of `calculate_uptime_downtime`: hour counters in
minutes, day and week counters divided by 60 into hours. -/
structure Output where
  store_id : ℤ
  uptime_last_hour : ℚ
  downtime_last_hour : ℚ
  uptime_last_day : ℚ
  downtime_last_day : ℚ
  uptime_last_week : ℚ
  downtime_last_week : ℚ
  deriving Repr, DecidableEq

/-- `database.calculate_uptime_downtime`: fetch timezone, observations
and the hours dict, localize the window bounds, walk the window hour by
hour with `hourStep`, then report the counters (day and week converted
to hours). -/
def calculate_uptime_downtime (db : DB) (sid s e : ℤ) : Except Unit Output :=
  (time_range (convert_utc_to_local s (fetch_store_timezone db sid))
      (convert_utc_to_local e (fetch_store_timezone db sid))).foldlM
    (hourStep (fetch_store_hours db sid) (fetch_store_data db sid s e)
      (fetch_store_timezone db sid)) ⟨0, 0, 0, 0, 0, 0⟩ >>= fun acc =>
  pure ⟨sid, acc.upH, acc.dnH, acc.upD / 60, acc.dnD / 60, acc.upW / 60, acc.dnW / 60⟩

/-- `database.generate_report`'s computation loop: one
`calculate_uptime_downtime` call per enumerated store over the window
`[now − 1 week, now)`, rows collected in order; there is no per-store
exception handler, so a raised exception propagates. -/
def generate_report_rows (db : DB) (now : ℤ) : Except Unit (List Output) :=
  (fetch_store_ids db).mapM
    (fun sid => calculate_uptime_downtime db sid (now - 604800) now)

/-- The CSV file name `reports/report_<timestamp>.csv` written by
`database.generate_report` (the timestamp rendered from `now`). -/
def reportFileName (now : ℤ) : String :=
  "reports/report_" ++ toString now ++ ".csv"

/-- `UPDATE reports SET status = %s WHERE report_id = %s`. -/
def update_report_status (tbl : List (String × String)) (rid status : String) :
    List (String × String) :=
  tbl.map (fun p => if p.1 = rid then (p.1, status) else p)

/-- `report.get_report_status`: status of the first `reports` row with
the given id, `none` when there is no row. -/
def get_report_status (tbl : List (String × String)) (rid : String) : Option String :=
  ((tbl.filter (fun p => p.1 = rid)).map (fun p => p.2)).head?

/-- `report.generate_report` acting on the `reports` table: insert the
job with status `"Running"` (committed), then run the report
computation; on success `database.generate_report` updates the status to
the report file path, on a raised exception no update happens and the
row keeps `"Running"`.  Returns the final table and the outcome. -/
def report_generate (db : DB) (tbl : List (String × String)) (rid : String) (now : ℤ) :
    List (String × String) × Except Unit (List Output) :=
  let tbl1 := tbl ++ [(rid, "Running")]
  match generate_report_rows db now with
  | Except.ok rows => (update_report_status tbl1 rid (reportFileName now), Except.ok rows)
  | Except.error e => (tbl1, Except.error e)

/-! ## Concrete databases used to instantiate and refute claims -/

/-- A store whose `menu_hours` rows give weekday 0 hours 09:00–17:00 and
weekday 1 hours 10:00–20:00. -/
def dbTwoRows : DB :=
  ⟨[⟨7, 0, 32400, 61200⟩, ⟨7, 1, 36000, 72000⟩], [(7, 0)], []⟩

/-- The §8 single-hour Monday scenario as a family: store `sid` in a
UTC-offset-0 zone, business hours Monday 09:00–17:00 only, one
`"active"` observation at Monday 09:00 UTC of week `k`. -/
def dbMonday (sid k : ℤ) : DB :=
  ⟨[⟨sid, 0, 32400, 61200⟩], [(sid, 0)], [⟨sid, "active", 604800 * k + 32400⟩]⟩

/-- Start of the Monday 09:00 hour of week `k` (seconds, day 0 a Monday). -/
def mondayNine (k : ℤ) : ℤ := 604800 * k + 32400

/-- Store 20, UTC offset 0, no schedule rows, one `"active"` observation
5 minutes before the 01:00 hour boundary (localized second 3300). -/
def dbBoundary : DB := ⟨[], [(20, 0)], [⟨20, "active", 3300⟩]⟩

/-- Store 10, UTC offset 0, no schedule rows, one `"inactive"`
observation inside the local hour 23:00–24:00 (second 84600). -/
def dbMidnight : DB := ⟨[], [(10, 0)], [⟨10, "inactive", 84600⟩]⟩

/-- Store 42, UTC offset 0, business hours Monday 09:00–17:00, one
`"active"` observation at Monday 18:00 — one hour after closing. -/
def dbAfterHours : DB :=
  ⟨[⟨42, 0, 32400, 61200⟩], [(42, 0)], [⟨42, "active", 64800⟩]⟩

/-- Two stores: store 1 computes without fault (its schedule row has
opening time 00:00, so the misdirected weekday lookup never reaches the
`TypeError` comparison), store 5 faults (its id equals weekday 5, so the
Saturday lookup hits the store-id key and trips the `time`-versus-`int`
comparison). -/
def dbFault : DB :=
  ⟨[⟨1, 0, 0, 61200⟩, ⟨5, 3, 50000, 60000⟩], [(1, 0), (5, 0)], []⟩

/-- Store 11 with a schedule row but zero observations anywhere. -/
def dbZeroObs : DB := ⟨[⟨11, 0, 0, 0⟩], [(11, 0)], []⟩

/-! ## C1 -/

/-- C1: the claim says `fetch_store_hours` returns a mapping keyed by
weekday (0–6) whose value per weekday is that weekday's
`(open_local, close_local)` pair.  The code instead keys the dict by
`row[0]`, which under `SELECT *` is the store id, and stores
`(dayofweek, start_time_local)` — the close time is dropped and rows for
distinct weekdays overwrite one another.  For store 7 with schedule rows
for weekdays 0 and 1 the returned dict is the single store-id-keyed
entry `(7, (1, 36000))`; neither weekday 0 nor weekday 1 is a key, and
the claimed pair `(32400, 61200)` for weekday 0 appears nowhere. -/
theorem fetch_store_hours_miskeyed :
    fetch_store_hours dbTwoRows 7 = [(7, (1, 36000))] ∧
    dictGet (fetch_store_hours dbTwoRows 7) 0 = none ∧
    dictGet (fetch_store_hours dbTwoRows 7) 1 = none := by
  refine ⟨?_, ?_, ?_⟩ <;> with_unfolding_all rfl

/-! ## C3 -/

/-- C3 counterexample: the claim says an observation 5 minutes before an
hour boundary, inside a visited hour, contributes 65 minutes of
coverage, with the part past the boundary counted into the next hour's
accumulator.  On `dbBoundary` (observation at second 3300, window
`[0, 7200)`, both hours visited via the open-all-day fallback) the code
yields exactly 60 total uptime minutes, all credited while processing
the first hour, and the next hour's pass contributes nothing — 60 ≠ 65,
so the claim is false. -/
theorem boundary_observation_sixty_not_sixtyfive :
    calculate_uptime_downtime dbBoundary 20 0 7200 =
      Except.ok ⟨20, 60, 0, 0, 0, 1, 0⟩ ∧
    hourContrib (fetch_store_data dbBoundary 20 0 7200) 0 0 = (60, 0) ∧
    hourContrib (fetch_store_data dbBoundary 20 0 7200) 0 3600 = (0, 0) ∧
    (60 : ℚ) ≠ 65 := by
  refine ⟨?_, ?_, ?_, by norm_num⟩ <;> with_unfolding_all rfl

/-! ## C6 -/

/-- C6: the claim says an hour contributes iff it overlaps that
weekday's business hours, and a non-overlapping hour contributes zero to
every counter.  Failing input: store 42 with Monday hours 09:00–17:00
and an `"active"` observation at Monday 18:00, window the Monday
18:00–19:00 hour.  That hour does not overlap 09:00–17:00, yet the code
counts 60 minutes of uptime (and 1.0 day/week hours), because
`fetch_store_hours` keys its dict by store id, so the weekday lookup
misses and the open-all-day fallback is applied even though weekday 0
has business hours defined. -/
theorem nonoverlapping_hour_counted :
    calculate_uptime_downtime dbAfterHours 42 64800 68400 =
      Except.ok ⟨42, 60, 0, 1, 0, 1, 0⟩ ∧
    dictGet (fetch_store_hours dbAfterHours 42) (weekday 64800) = none ∧
    (60 : ℚ) ≠ 0 := by
  refine ⟨?_, ?_, by norm_num⟩ <;> with_unfolding_all rfl

/-! ## C7 counterexample -/

/-- C7 counterexample: store 10 has no business-hours row for any
weekday, so by the claim every hour of every weekday is treated as
within business hours.  But the hour 23:00–24:00 (local seconds
`[82800, 86400)`) fails the fallback test — `hour_end.time()` is
exactly `00:00:00`, which is not `> time(0, 0)` — so the hour is
skipped and its `"inactive"` observation contributes nothing. -/
theorem midnight_end_hour_skipped :
    hourOverlap (fetch_store_hours dbMidnight 10) 82800 = Except.ok false ∧
    calculate_uptime_downtime dbMidnight 10 82800 86400 =
      Except.ok ⟨10, 0, 0, 0, 0, 0, 0⟩ := by
  refine ⟨?_, ?_⟩ <;> with_unfolding_all rfl

/-! ## C9 counterexample -/

/-- C9 counterexample: the §8 scenario configuration with store id 0.
The store-id-keyed dict makes the Monday (weekday 0) lookup hit the
store-id key; the unpacked "close" slot is the opening time 09:00, the
test `hour_start.time() < 09:00:00` is false, and the hour is skipped:
the estimator returns all zeros instead of the claimed
60/0/1.0/0/1.0/0. -/
theorem scenario_store_zero_returns_zeros :
    calculate_uptime_downtime (dbMonday 0 0) 0 (mondayNine 0) (mondayNine 0 + 3600) =
      Except.ok ⟨0, 0, 0, 0, 0, 0, 0⟩ ∧
    (0 : ℚ) ≠ 60 := by
  exact ⟨by with_unfolding_all rfl, by norm_num⟩

set_option maxRecDepth 40000

/-! ## C4 counterexample -/

/-- C4 counterexample: on `dbFault`, store 1's row computes fine in
isolation, store 5's computation raises; the claim says report
generation still produces every other store's row, but the loop in
`generate_report` has no per-store exception handler, so the whole
report computation raises and produces no rows at all — store 1's row
included. -/
theorem report_aborts_on_single_fault :
    calculate_uptime_downtime dbFault 1 604800 1209600 =
      Except.ok ⟨1, 0, 0, 0, 0, 0, 0⟩ ∧
    calculate_uptime_downtime dbFault 5 604800 1209600 = Except.error () ∧
    generate_report_rows dbFault 1209600 = Except.error () := by
  refine ⟨?_, ?_, ?_⟩ <;> with_unfolding_all rfl

/-! ## C5 counterexample -/

/-- C5 counterexample: trigger a report for `dbFault`.  The job row is
inserted with status `"Running"`, the generation then raises, no status
update ever runs, and a poller querying the job sees `"Running"`; since
nothing else writes the `reports` table, it sees `"Running"` forever,
contrary to the claim. -/
theorem failed_job_stuck_running :
    (report_generate dbFault [] "r1" 1209600).2 = Except.error () ∧
    get_report_status (report_generate dbFault [] "r1" 1209600).1 "r1" =
      some "Running" := by
  refine ⟨?_, ?_⟩ <;> with_unfolding_all rfl

/-! ## Monad plumbing lemmas -/

/-- Inversion for a successful `Except` bind. -/
theorem except_bind_eq_ok {α β : Type} {x : Except Unit α} {g : α → Except Unit β} {b : β}
    (h : x >>= g = Except.ok b) : ∃ a, x = Except.ok a ∧ g a = Except.ok b := by
  cases x with
  | error e => exact absurd h (by simp [Bind.bind, Except.bind])
  | ok a => exact ⟨a, rfl, h⟩

/-- A successful `pure` in `Except` is the identity. -/
theorem except_pure_eq_ok {α : Type} {a b : α}
    (h : (pure a : Except Unit α) = Except.ok b) : a = b := by
  exact Except.ok.inj h

/-! ## C8 -/

/-- Number of fetched observations with the given status whose localized
timestamp lies in `[hour_start, hour_start + 1h)`. -/
def countStatus (data : List (ℤ × String)) (off hourStart : ℤ) (st : String) : ℕ :=
  (data.filter (fun d =>
    decide (convert_utc_to_local d.1 off ≥ hourStart) &&
    decide (convert_utc_to_local d.1 off < hourStart + 3600) &&
    decide (d.2 = st))).length

/-- The forward-fill span of an observation at or after the hour start
is exactly 60 minutes: the `max` clip is vacuous there. -/
theorem spanMinutes_eq_sixty {t hourStart : ℤ} (h : hourStart ≤ t) :
    spanMinutes t hourStart = 60 := by
  unfold spanMinutes
  rw [max_eq_left h]
  have h2 : (t + 3600 - t : ℤ) = 3600 := by ring
  rw [h2]
  norm_num

/-- Unrolling the observation loop: from any accumulator it adds 60
minutes per in-hour `"active"` observation to the first component and
60 per in-hour `"inactive"` observation to the second. -/
theorem hourContrib_foldl (off hourStart : ℤ) (data : List (ℤ × String)) :
    ∀ acc : ℚ × ℚ,
      data.foldl (obsStep off hourStart) acc =
        (acc.1 + 60 * (countStatus data off hourStart "active" : ℚ),
         acc.2 + 60 * (countStatus data off hourStart "inactive" : ℚ)) := by
  induction data with
  | nil => intro acc; simp [countStatus]
  | cons d rest ih =>
    intro acc
    rw [List.foldl_cons, ih (obsStep off hourStart acc d)]
    unfold obsStep countStatus
    by_cases h1 : convert_utc_to_local d.1 off ≥ hourStart ∧
        convert_utc_to_local d.1 off < hourStart + 3600
    · by_cases h2 : d.2 = "active"
      · simp only [h1, h2, if_pos, List.filter_cons, countStatus, and_true,
          decide_eq_true_eq, if_true]
        simp [h1.1, h1.2, h2, spanMinutes_eq_sixty h1.1, List.length_cons]
        ring
      · by_cases h3 : d.2 = "inactive"
        · simp only [h1, h2, h3, if_pos, List.filter_cons, countStatus]
          simp [h1.1, h1.2, h2, h3, spanMinutes_eq_sixty h1.1, List.length_cons]
          ring
        · simp only [h1, h2, h3, List.filter_cons, countStatus]
          simp [h1.1, h1.2, h2, h3]
    · simp only [h1, List.filter_cons, countStatus]
      have h1' : ¬(hourStart ≤ convert_utc_to_local d.1 off ∧
          convert_utc_to_local d.1 off < hourStart + 3600) := h1
      simp [if_neg h1, h1']

/-- C8: every counted observation's computed span
`(t + 1h) − max(t, hour_start)` is exactly 60 minutes (the clip to the
hour start never bites for `t ≥ hour_start`, and nothing clips the far
end), so a visited hour's uptime is 60 minutes times the number of
in-hour `"active"` observations and its downtime 60 times the number of
in-hour `"inactive"` ones; other statuses add nothing. -/
theorem span_sixty_and_hour_counts (data : List (ℤ × String)) (off hourStart : ℤ) :
    (∀ t : ℤ, hourStart ≤ t → spanMinutes t hourStart = 60) ∧
    (hourContrib data off hourStart).1 =
      60 * (countStatus data off hourStart "active" : ℚ) ∧
    (hourContrib data off hourStart).2 =
      60 * (countStatus data off hourStart "inactive" : ℚ) := by
  refine ⟨fun t ht => spanMinutes_eq_sixty ht, ?_, ?_⟩ <;>
    rw [hourContrib, hourContrib_foldl off hourStart data (0, 0)] <;> ring

/-- C8 witness: instantiated at the boundary observation database. -/
theorem span_sixty_and_hour_counts_witness :
    spanMinutes 3300 0 = 60 ∧
    (hourContrib [(3300, "active")] 0 0).1 =
      60 * (countStatus [(3300, "active")] 0 0 "active" : ℚ) := by
  refine ⟨(span_sixty_and_hour_counts [(3300, "active")] 0 0).1 3300 (by norm_num),
    (span_sixty_and_hour_counts [(3300, "active")] 0 0).2.1⟩

/-! ## C2 -/

/-- Loop invariant for C2: the hour counters (minutes) always equal the
week counters (minutes), because line 355/356 adds `hour_uptime` for
every hour while `hour_uptime` is zero outside the visited branch where
line 351/352 adds it to the week counters. -/
def hourWeekInv (a : Counters) : Prop := a.upH = a.upW ∧ a.dnH = a.dnW

/-- One hour-loop iteration preserves the hour-equals-week invariant. -/
theorem hourStep_hourWeekInv {hoursDict : List (ℤ × (ℤ × ℤ))}
    {data : List (ℤ × String)} {off : ℤ} {a a' : Counters} {h : ℤ}
    (hstep : hourStep hoursDict data off a h = Except.ok a')
    (hinv : hourWeekInv a) : hourWeekInv a' := by
  unfold hourStep at hstep
  obtain ⟨b, hov, hrest⟩ := except_bind_eq_ok hstep
  have ha' := except_pure_eq_ok hrest
  obtain ⟨h1, h2⟩ := hinv
  cases b with
  | false =>
    simp only [Bool.false_eq_true, if_false] at ha'
    subst ha'
    exact ⟨by simp [h1], by simp [h2]⟩
  | true =>
    simp only [if_true] at ha'
    by_cases hday : 32400 ≤ timeOfDay h ∧ timeOfDay h < 75600
    · rw [if_pos hday] at ha'
      subst ha'
      exact ⟨by simp [h1], by simp [h2]⟩
    · rw [if_neg hday] at ha'
      subst ha'
      exact ⟨by simp [h1], by simp [h2]⟩

/-- The whole hour walk preserves the hour-equals-week invariant. -/
theorem foldlM_hourWeekInv (hoursDict : List (ℤ × (ℤ × ℤ)))
    (data : List (ℤ × String)) (off : ℤ) :
    ∀ (l : List ℤ) (a a' : Counters),
      l.foldlM (hourStep hoursDict data off) a = Except.ok a' →
      hourWeekInv a → hourWeekInv a' := by
  intro l
  induction l with
  | nil =>
    intro a a' hfold hinv
    rw [List.foldlM_nil] at hfold
    rw [← except_pure_eq_ok hfold]
    exact hinv
  | cons x xs ih =>
    intro a a' hfold hinv
    rw [List.foldlM_cons] at hfold
    obtain ⟨a1, hstep, hrest⟩ := except_bind_eq_ok hfold
    exact ih a1 a' hrest (hourStep_hourWeekInv hstep hinv)

/-- C2: whenever the estimator returns, its `uptime_last_hour` (minutes)
is 60 times `uptime_last_week` (hours), and likewise for downtime: the
"last hour" counters accumulate over every hour of the query window
exactly as the week counters do, the week counters merely being divided
by 60 at the end. -/
theorem hour_counters_sixty_times_week {db : DB} {sid s e : ℤ} {r : Output}
    (h : calculate_uptime_downtime db sid s e = Except.ok r) :
    r.uptime_last_hour = 60 * r.uptime_last_week ∧
    r.downtime_last_hour = 60 * r.downtime_last_week := by
  unfold calculate_uptime_downtime at h
  obtain ⟨acc, hacc, hpure⟩ := except_bind_eq_ok h
  have hr := except_pure_eq_ok hpure
  have hinv := foldlM_hourWeekInv _ _ _ _ _ _ hacc ⟨rfl, rfl⟩
  obtain ⟨h1, h2⟩ := hinv
  subst hr
  constructor
  · show acc.upH = 60 * (acc.upW / 60)
    rw [h1]
    field_simp
  · show acc.dnH = 60 * (acc.dnW / 60)
    rw [h2]
    field_simp

/-- C2 witness: the relation instantiated at the Monday scenario store. -/
theorem hour_counters_sixty_times_week_witness :
    (Output.mk 1 60 0 1 0 1 0).uptime_last_hour =
      60 * (Output.mk 1 60 0 1 0 1 0).uptime_last_week ∧
    (Output.mk 1 60 0 1 0 1 0).downtime_last_hour =
      60 * (Output.mk 1 60 0 1 0 1 0).downtime_last_week :=
  @hour_counters_sixty_times_week (dbMonday 1 0) 1 (mondayNine 0)
    (mondayNine 0 + 3600) (Output.mk 1 60 0 1 0 1 0) (by with_unfolding_all rfl)

/-! ## C7 amended -/

/-- C7 amended: when the weekday lookup in the fetched dict misses (in
particular whenever the store has no business-hours rows at all), the
open-all-day fallback `(00:00:00, 23:59:59)` is applied, and the hour is
treated as within business hours precisely when its local start
time-of-day is not exactly `23:59:59` and its local end time-of-day is
not exactly `00:00:00`; an hour ending exactly at local midnight is
skipped. -/
theorem fallback_hour_visited_iff (hoursDict : List (ℤ × (ℤ × ℤ))) (hourStart : ℤ)
    (hmiss : dictGet hoursDict (weekday hourStart) = none) :
    (hourOverlap hoursDict hourStart = Except.ok true ↔
      (timeOfDay hourStart ≠ 86399 ∧ timeOfDay (hourStart + 3600) ≠ 0)) := by
  unfold hourOverlap
  rw [hmiss]
  simp only [Except.ok.injEq, Bool.and_eq_true, decide_eq_true_eq]
  unfold timeOfDay
  omega

/-- C7 amended witness: the 00:00–01:00 local hour of a store with no
schedule rows is treated as within business hours. -/
theorem fallback_hour_visited_iff_witness :
    hourOverlap [] 0 = Except.ok true :=
  (fallback_hour_visited_iff [] 0 (by with_unfolding_all rfl)).mpr (by decide)

/-! ## C3 amended -/

/-- C3 amended: an `"active"` observation localized 5 minutes before the
hour boundary (300 s before `hour_start + 1h`) contributes exactly 60
minutes — 55 within its hour and nominally 5 past the boundary — all
credited to the accumulators of the hour containing it; the next hour's
pass counts nothing for it. -/
theorem boundary_observation_sixty_own_hour (t off hourStart : ℤ)
    (h : convert_utc_to_local t off = hourStart + 3300) :
    hourContrib [(t, "active")] off hourStart = (60, 0) ∧
    hourContrib [(t, "active")] off (hourStart + 3600) = (0, 0) := by
  have hge : hourStart ≤ hourStart + 3300 := by omega
  have hlt : hourStart + 3300 < hourStart + 3600 := by omega
  have hnge : ¬hourStart + 3600 ≤ hourStart + 3300 := by omega
  unfold hourContrib obsStep
  simp [h, hge, hlt, hnge, spanMinutes_eq_sixty hge]

/-- C3 amended witness: the boundary observation at second 3300 against
the hours starting at 0 and at 3600. -/
theorem boundary_observation_sixty_own_hour_witness :
    hourContrib [(3300, "active")] 0 0 = (60, 0) ∧
    hourContrib [(3300, "active")] 0 3600 = (0, 0) :=
  boundary_observation_sixty_own_hour 3300 0 0 (by with_unfolding_all rfl)

/-! ## C4 amended -/

/-- Mapping in `Except` over a list raises as soon as any element
raises: if some element of the list fails, the whole traversal fails. -/
theorem mapM_error_of_mem {α β : Type} (f : α → Except Unit β) :
    ∀ (l : List α) (a : α), a ∈ l → f a = Except.error () →
      l.mapM f = Except.error () := by
  intro l
  induction l with
  | nil => intro a ha; exact absurd ha (List.not_mem_nil a)
  | cons x xs ih =>
    intro a ha herr
    rw [List.mapM_cons]
    cases hx : f x with
    | error e =>
      cases e
      rfl
    | ok b =>
      show (xs.mapM f >>= fun bs => pure (b :: bs)) = Except.error ()
      have hmem : a ∈ xs := by
        cases List.mem_cons.mp ha with
        | inl hax => rw [hax, hx] at herr; cases herr
        | inr hax => exact hax
      rw [ih a hmem herr]
      rfl

/-- C4 amended: the per-store loop of `generate_report` has no exception
handler, so if computing any one store's row raises, the whole report
computation raises and no store's row is produced — the failure is
propagated, not isolated. -/
theorem single_fault_aborts_whole_report (db : DB) (now sid : ℤ)
    (hmem : sid ∈ fetch_store_ids db)
    (hfault : calculate_uptime_downtime db sid (now - 604800) now = Except.error ()) :
    generate_report_rows db now = Except.error () := by
  unfold generate_report_rows
  exact mapM_error_of_mem _ _ sid hmem hfault

/-- C4 amended witness: instantiated at the two-store database whose
store 5 faults. -/
theorem single_fault_aborts_whole_report_witness :
    generate_report_rows dbFault 1209600 = Except.error () :=
  single_fault_aborts_whole_report dbFault 1209600 5 (by decide)
    (by with_unfolding_all rfl)

/-! ## C10 -/

/-- Inversion for a successful `Except` traversal: every input element
maps to some element of the output list. -/
theorem mapM_ok_mem {α β : Type} (f : α → Except Unit β) :
    ∀ (l : List α) (rows : List β), l.mapM f = Except.ok rows →
      ∀ a ∈ l, ∃ b ∈ rows, f a = Except.ok b := by
  intro l
  induction l with
  | nil => intro rows h a ha; exact absurd ha (List.not_mem_nil a)
  | cons x xs ih =>
    intro rows h a ha
    rw [List.mapM_cons] at h
    obtain ⟨b, hb, hrest⟩ := except_bind_eq_ok h
    obtain ⟨bs, hbs, hpure⟩ := except_bind_eq_ok hrest
    rw [← except_pure_eq_ok hpure]
    cases List.mem_cons.mp ha with
    | inl hax =>
      subst hax
      exact ⟨b, List.mem_cons_self b bs, hb⟩
    | inr hax =>
      obtain ⟨b', hb', hf⟩ := ih bs hbs a hax
      exact ⟨b', List.mem_cons_of_mem b hb', hf⟩

/-- With no fetched observations, one hour iteration that returns leaves
the counters unchanged: `hour_uptime` and `hour_downtime` stay 0. -/
theorem hourStep_empty_data {hoursDict : List (ℤ × (ℤ × ℤ))} {off : ℤ}
    {a a' : Counters} {h : ℤ}
    (hstep : hourStep hoursDict [] off a h = Except.ok a') : a' = a := by
  unfold hourStep at hstep
  obtain ⟨b, hov, hrest⟩ := except_bind_eq_ok hstep
  rw [← except_pure_eq_ok hrest]
  cases a
  cases b <;> by_cases hday : 32400 ≤ timeOfDay h ∧ timeOfDay h < 75600 <;>
    simp [hourContrib, hday]

/-- With no fetched observations, the whole hour walk leaves the
counters at their initial zeros whenever it returns. -/
theorem foldlM_empty_data (hoursDict : List (ℤ × (ℤ × ℤ))) (off : ℤ) :
    ∀ (l : List ℤ) (a a' : Counters),
      l.foldlM (hourStep hoursDict [] off) a = Except.ok a' → a' = a := by
  intro l
  induction l with
  | nil =>
    intro a a' hfold
    rw [List.foldlM_nil] at hfold
    exact (except_pure_eq_ok hfold).symm
  | cons x xs ih =>
    intro a a' hfold
    rw [List.foldlM_cons] at hfold
    obtain ⟨a1, hstep, hrest⟩ := except_bind_eq_ok hfold
    rw [ih a1 a' hrest, hourStep_empty_data hstep]

/-- C10: when the report computation completes, a store enumerated from
`menu_hours` that has zero observations in the query window still gets a
row, and all six of its uptime/downtime outputs are 0. -/
theorem zero_observations_zero_row (db : DB) (now : ℤ) (rows : List Output) (sid : ℤ)
    (hrep : generate_report_rows db now = Except.ok rows)
    (hmem : sid ∈ fetch_store_ids db)
    (hdata : fetch_store_data db sid (now - 604800) now = []) :
    ∃ out ∈ rows, out.store_id = sid ∧
      out.uptime_last_hour = 0 ∧ out.downtime_last_hour = 0 ∧
      out.uptime_last_day = 0 ∧ out.downtime_last_day = 0 ∧
      out.uptime_last_week = 0 ∧ out.downtime_last_week = 0 := by
  unfold generate_report_rows at hrep
  obtain ⟨out, hout, hcalc⟩ := mapM_ok_mem _ _ rows hrep sid hmem
  refine ⟨out, hout, ?_⟩
  unfold calculate_uptime_downtime at hcalc
  rw [hdata] at hcalc
  obtain ⟨acc, hacc, hpure⟩ := except_bind_eq_ok hcalc
  rw [foldlM_empty_data _ _ _ _ _ hacc] at hpure
  rw [← except_pure_eq_ok hpure]
  norm_num

/-- C10 witness: the single-store database with no observations. -/
theorem zero_observations_zero_row_witness :
    ∃ out ∈ [Output.mk 11 0 0 0 0 0 0], out.store_id = 11 ∧
      out.uptime_last_hour = 0 ∧ out.downtime_last_hour = 0 ∧
      out.uptime_last_day = 0 ∧ out.downtime_last_day = 0 ∧
      out.uptime_last_week = 0 ∧ out.downtime_last_week = 0 :=
  zero_observations_zero_row dbZeroObs 604800 [Output.mk 11 0 0 0 0 0 0] 11
    (by with_unfolding_all rfl) (by decide) (by with_unfolding_all rfl)

/-! ## C5 amended -/

/-- An absent status means no `reports` row carries the job id. -/
theorem get_report_status_none_iff (tbl : List (String × String)) (rid : String) :
    get_report_status tbl rid = none ↔ ∀ p ∈ tbl, p.1 ≠ rid := by
  unfold get_report_status
  induction tbl with
  | nil => simp
  | cons q rest ih =>
    by_cases hq : q.1 = rid
    · simp [List.filter_cons, hq]
    · simp only [List.filter_cons, hq, decide_False, if_false, decide_eq_true_eq] at ih ⊢
      simp [hq, ih]

/-- Reading the job row right after inserting it on a table that did not
contain the id yields the inserted status. -/
theorem get_report_status_append (tbl : List (String × String)) (rid st : String)
    (hfresh : ∀ p ∈ tbl, p.1 ≠ rid) :
    get_report_status (tbl ++ [(rid, st)]) rid = some st := by
  unfold get_report_status
  induction tbl with
  | nil => simp
  | cons q rest ih =>
    have hq := hfresh q (List.mem_cons_self q rest)
    simp only [List.cons_append, List.filter_cons, hq, decide_False, if_false]
    exact ih (fun p hp => hfresh p (List.mem_cons_of_mem q hp))

/-- Reading the job row after the terminal `UPDATE` on a table whose
only row with the id is the inserted one yields the new status. -/
theorem get_report_status_update (tbl : List (String × String)) (rid st0 st : String)
    (hfresh : ∀ p ∈ tbl, p.1 ≠ rid) :
    get_report_status (update_report_status (tbl ++ [(rid, st0)]) rid st) rid =
      some st := by
  unfold get_report_status update_report_status
  induction tbl with
  | nil => simp
  | cons q rest ih =>
    have hq := hfresh q (List.mem_cons_self q rest)
    simp only [List.cons_append, List.map_cons, hq, if_false, List.filter_cons,
      decide_False]
    exact ih (fun p hp => hfresh p (List.mem_cons_of_mem q hp))

/-- The generated report file name can never read as the `"Running"`
sentinel status. -/
theorem reportFileName_ne_running (now : ℤ) : reportFileName now ≠ "Running" := by
  intro h
  have hlen := congrArg String.length h
  rw [reportFileName, String.length_append, String.length_append] at hlen
  rw [show ("reports/report_").length = 15 from by decide,
    show (".csv").length = 4 from by decide,
    show ("Running").length = 7 from by decide] at hlen
  omega

/-- C5 amended: a freshly triggered job is created `"Running"`; when the
report computation succeeds the job transitions to the terminal status
(the report file path, which is never `"Running"`); but when the
computation raises, no transition happens and the job's status reads
`"Running"` — and since nothing else writes the `reports` table, a
poller sees `"Running"` indefinitely. -/
theorem job_running_then_terminal_or_stuck (db : DB) (tbl : List (String × String))
    (rid : String) (now : ℤ)
    (hfresh : get_report_status tbl rid = none) :
    (∀ rows, generate_report_rows db now = Except.ok rows →
      get_report_status (report_generate db tbl rid now).1 rid =
        some (reportFileName now) ∧ reportFileName now ≠ "Running") ∧
    (generate_report_rows db now = Except.error () →
      (report_generate db tbl rid now).2 = Except.error () ∧
      get_report_status (report_generate db tbl rid now).1 rid =
        some "Running") := by
  have hfresh' := (get_report_status_none_iff tbl rid).mp hfresh
  constructor
  · intro rows hok
    unfold report_generate
    rw [hok]
    exact ⟨get_report_status_update tbl rid "Running" (reportFileName now) hfresh',
      reportFileName_ne_running now⟩
  · intro herr
    unfold report_generate
    rw [herr]
    exact ⟨rfl, get_report_status_append tbl rid "Running" hfresh'⟩

/-- C5 amended witness: the faulting database leaves the job `"Running"`
with the failure surfaced as a raised exception. -/
theorem job_running_then_terminal_or_stuck_witness :
    (report_generate dbFault [] "r1" 1209600).2 = Except.error () ∧
    get_report_status (report_generate dbFault [] "r1" 1209600).1 "r1" =
      some "Running" :=
  (job_running_then_terminal_or_stuck dbFault [] "r1" 1209600
    (by with_unfolding_all rfl)).2 (by with_unfolding_all rfl)

/-! ## C9 amended -/

/-- Bind on a success in `Except` applies the continuation. -/
theorem except_ok_bind {α β : Type} (a : α) (g : α → Except Unit β) :
    (Except.ok a >>= g : Except Unit β) = g a := rfl

/-- Bind on a `pure` in `Except` applies the continuation. -/
theorem except_pure_bind {α β : Type} (a : α) (g : α → Except Unit β) :
    ((pure a : Except Unit α) >>= g) = g a := rfl

/-- A window of exactly one hour walks a single hour. -/
theorem time_range_single (s : ℤ) : time_range s (s + 3600) = [s] := by
  unfold time_range numHours
  rw [if_pos (by omega : s < s + 3600),
    show s + 3600 - s - 1 = 3599 from by ring,
    show ((3599 : ℤ).toNat / 3600 + 1) = 1 from by decide,
    show List.range 1 = [0] from rfl]
  simp

/-- Monday 09:00 of any week has weekday 0. -/
theorem weekday_mondayNine (k : ℤ) : weekday (mondayNine k) = 0 := by
  unfold weekday mondayNine
  omega

/-- Monday 09:00 of any week has time-of-day 09:00:00. -/
theorem timeOfDay_mondayNine (k : ℤ) : timeOfDay (mondayNine k) = 32400 := by
  unfold timeOfDay mondayNine
  omega

/-- One hour after Monday 09:00 has time-of-day 10:00:00. -/
theorem timeOfDay_mondayTen (k : ℤ) : timeOfDay (mondayNine k + 3600) = 36000 := by
  unfold timeOfDay mondayNine
  omega

/-- An hour that passes the business-hours test inside the 09:00–21:00
day window adds its apportioned minutes to all three pairs of counters. -/
theorem hourStep_visited {hoursDict : List (ℤ × (ℤ × ℤ))} {data : List (ℤ × String)}
    {off h : ℤ} {a : Counters}
    (hov : hourOverlap hoursDict h = Except.ok true)
    (hday : 32400 ≤ timeOfDay h ∧ timeOfDay h < 75600) :
    hourStep hoursDict data off a h =
      Except.ok ⟨a.upH + (hourContrib data off h).1, a.dnH + (hourContrib data off h).2,
        a.upD + (hourContrib data off h).1, a.dnD + (hourContrib data off h).2,
        a.upW + (hourContrib data off h).1, a.dnW + (hourContrib data off h).2⟩ := by
  unfold hourStep
  rw [hov, except_ok_bind]
  simp [hday]
  rfl

/-- C9 amended: for every store whose id is not 0 — an id equal to
Monday's weekday index would collide with the store-id-keyed lookup (see
the C9 counterexample) — with UTC timezone, business hours Monday
09:00–17:00 only, and exactly one `"active"` observation at Monday
09:00 UTC, querying exactly that hour returns 60 uptime minutes, 0
downtime minutes, and 1.0 uptime hours with 0 downtime for both the day
and the week windows. -/
theorem monday_scenario_sixty (sid k : ℤ) (hsid : sid ≠ 0) :
    calculate_uptime_downtime (dbMonday sid k) sid (mondayNine k)
      (mondayNine k + 3600) = Except.ok ⟨sid, 60, 0, 1, 0, 1, 0⟩ := by
  have htz : fetch_store_timezone (dbMonday sid k) sid = 0 := by
    simp [fetch_store_timezone, dbMonday]
  have hdata : fetch_store_data (dbMonday sid k) sid (mondayNine k)
      (mondayNine k + 3600) = [(mondayNine k, "active")] := by
    simp [fetch_store_data, dbMonday, mondayNine]
  have hhours : fetch_store_hours (dbMonday sid k) sid = [(sid, (0, 32400))] := by
    simp [fetch_store_hours, dbMonday, dictInsert]
  have hov : hourOverlap [(sid, ((0 : ℤ), (32400 : ℤ)))] (mondayNine k) =
      Except.ok true := by
    unfold hourOverlap
    rw [weekday_mondayNine,
      show dictGet [(sid, ((0 : ℤ), (32400 : ℤ)))] 0 = none from by
        simp [dictGet, hsid],
      timeOfDay_mondayNine, timeOfDay_mondayTen]
    norm_num
  have hcontrib : hourContrib [(mondayNine k, "active")] 0 (mondayNine k) =
      (60, 0) := by
    have hlt : mondayNine k < mondayNine k + 3600 := by omega
    unfold hourContrib obsStep
    simp [convert_utc_to_local, hlt,
      spanMinutes_eq_sixty (le_refl (mondayNine k))]
  unfold calculate_uptime_downtime
  rw [htz, hdata, hhours,
    show convert_utc_to_local (mondayNine k) 0 = mondayNine k from by
      simp [convert_utc_to_local],
    show convert_utc_to_local (mondayNine k + 3600) 0 = mondayNine k + 3600 from by
      simp [convert_utc_to_local],
    time_range_single, List.foldlM_cons,
    hourStep_visited hov ⟨by rw [timeOfDay_mondayNine], by
      rw [timeOfDay_mondayNine]; norm_num⟩,
    except_ok_bind, List.foldlM_nil, except_pure_bind]
  rw [hcontrib]
  exact congrArg Except.ok (by norm_num)

/-- C9 amended witness: the scenario at store id 1 in week 0. -/
theorem monday_scenario_sixty_witness :
    calculate_uptime_downtime (dbMonday 1 0) 1 (mondayNine 0)
      (mondayNine 0 + 3600) = Except.ok ⟨1, 60, 0, 1, 0, 1, 0⟩ :=
  monday_scenario_sixty 1 0 (by decide)
